import Mathlib

/-!
Shallow embedding of the url-shortener core (src/src/main.rs, src/src/models.rs).

The two handlers `create_url` and `get_redir` are translated as pure state
transformers over an abstract store interface `StoreOps`.  The concrete store
`listStore` models the sqlite table `urls` as a list of rows together with an
operation counter (`clock`) and a fault schedule (`faults`), so that
store-level failures ("lower-level store failure" in the spec) can be injected
at any individual operation.  Random slug generation (`nanoid!(10)`) is
modelled as a stream `gens : Nat → String` of candidates, following the spec's
design note that slug generation is a pure function of a random source.
A Rust panic (an `unwrap()` on an error value) is modelled by the `panic`
constructor of `Outcome`.
-/

namespace UrlShortener

/-- Row type of the `urls` table (struct `Url` in src/src/models.rs). -/
structure Url where
  slug : String
  url : String
  author_ip : String
  usage_count : Int
  deriving DecidableEq

/-- Error taxonomy (enum `UrlErr` in src/src/main.rs).  `JsonError` carries the
serde error, modelled as its message string. -/
inductive UrlErr where
  | SlugOccupied
  | SlugTooManyTries
  | DBError
  | JsonError (msg : String)
  | NotFound
  deriving DecidableEq

/-- Result of running a handler body: a normal value, an error value of the
taxonomy, or a Rust panic (`unwrap` of an error). -/
inductive Outcome (α : Type) where
  | ok (a : α)
  | err (e : UrlErr)
  | panic
  deriving DecidableEq

/-- Abstract interface to the store (the external sqlite collaborator).
Each operation returns `none` on a store-level failure, together with the
successor store state.
`load` is the limit-1 query `urls.filter(slug.eq(s)).limit(1).load::<Url>`;
`insertRow` is `diesel::insert_into(urls::table).values(np).execute`;
`bumpUsage` is `diesel::update(urls.find(s)).set(usage_count.eq(usage_count + 1)).execute`. -/
structure StoreOps (σ : Type) where
  load : σ → String → Option (List Url) × σ
  insertRow : σ → Url → Option Unit × σ
  bumpUsage : σ → String → Option Unit × σ

/-- The limit-1 lookup by slug on a list-of-rows table. -/
def loadBySlug (rows : List Url) (s : String) : List Url :=
  (rows.filter (fun u => u.slug = s)).take 1

/-- Increment `usage_count` of every row whose slug is `s`
(`set usage_count = usage_count + 1 where slug = s`; the slug is the table's
unique key, so at most one row matches). -/
def bumpRow (s : String) (rows : List Url) : List Url :=
  rows.map (fun u => if u.slug = s then { u with usage_count := u.usage_count + 1 } else u)

/-- Concrete store state: the table rows, an operation counter, and a fault
schedule saying which operation (by sequence number) fails. -/
structure DB where
  rows : List Url
  clock : Nat
  faults : Nat → Bool

/-- The concrete store.  Each operation advances `clock` by one and fails iff
the fault schedule says so.  `insertRow` additionally fails when a row with the
same slug is already present: the table's schema (src/src/schema.rs, not part
of the sources) is modelled from the spec, which declares `slug` a unique key,
so a duplicate insert is rejected by the store. -/
def listStore : StoreOps DB where
  load st s :=
    if st.faults st.clock then (none, { st with clock := st.clock + 1 })
    else (some (loadBySlug st.rows s), { st with clock := st.clock + 1 })
  insertRow st u :=
    if st.faults st.clock ∨ st.rows.any (fun v => v.slug = u.slug) then
      (none, { st with clock := st.clock + 1 })
    else
      (some (), { st with rows := st.rows ++ [u], clock := st.clock + 1 })
  bumpUsage st s :=
    if st.faults st.clock then (none, { st with clock := st.clock + 1 })
    else (some (), { st with rows := bumpRow s st.rows, clock := st.clock + 1 })

/-- The `collides` closure of `create_url` (src/src/main.rs lines 85-93): a
limit-1 load by slug; a nonempty result means collision, and a store failure
is treated as a collision ("let's just pretend that it's colliding"). -/
def collides {σ : Type} (ops : StoreOps σ) (st : σ) (try_slug : String) : Bool × σ :=
  match ops.load st try_slug with
  | (some v, st') => (decide (0 < v.length), st')
  | (none, st') => (true, st')

/-- The generated-slug retry loop (src/src/main.rs lines 101-108), unrolled on
its fuel.  Iteration `i` draws candidate `gens (i+1)` — the candidate drawn
before the loop (`gens 0`, line 101) is overwritten on the first iteration and
never checked.  Returns the first non-colliding candidate, or `none` when the
fuel (10 in the source) is exhausted. -/
def genLoop {σ : Type} (ops : StoreOps σ) (gens : Nat → String) :
    Nat → Nat → σ → Option String × σ
  | _, 0, st => (none, st)
  | i, fuel + 1, st =>
    match collides ops st (gens (i + 1)) with
    | (false, st') => (some (gens (i + 1)), st')
    | (true, st') => genLoop ops gens (i + 1) fuel st'

/-- Insert of the new row followed by the read-back of the persisted row
(src/src/main.rs lines 116-135).  The read-back result is indexed without a
guard (`new_url.get(0).cloned().unwrap()`): an empty read-back panics. -/
def insertAndRead {σ : Type} (ops : StoreOps σ) (new_slug url author_ip : String)
    (st : σ) : Outcome Url × σ :=
  match ops.insertRow st ⟨new_slug, url, author_ip, 0⟩ with
  | (none, st') => (.err .DBError, st')
  | (some _, st') =>
    match ops.load st' new_slug with
    | (none, st'') => (.err .DBError, st'')
    | (some new_url, st'') =>
      match new_url.head? with
      | some u => (.ok u, st'')
      | none => (.panic, st'')

/-- Body of the `conn.interact(move |conn| ...)` closure of `create_url`
(src/src/main.rs lines 84-136).  Explicit-slug path: a colliding (or failing)
existence check yields `SlugOccupied`; otherwise the row is inserted and read
back.  Generated path: up to 10 candidates are checked; exhaustion yields
`SlugTooManyTries`.  A panic outcome here is a panic of the closure, caught
by the pool's `interact` (see `create_url`). -/
def create_url_closure {σ : Type} (ops : StoreOps σ) (gens : Nat → String)
    (url : String) (slug : Option String) (author_ip : String) (st : σ) :
    Outcome Url × σ :=
  match slug with
  | some s =>
    match collides ops st s with
    | (true, st') => (.err .SlugOccupied, st')
    | (false, st') => insertAndRead ops s url author_ip st'
  | none =>
    match genLoop ops gens 0 10 st with
    | (none, st') => (.err .SlugTooManyTries, st')
    | (some s, st') => insertAndRead ops s url author_ip st'

/-- The interact-error handling of `create_url` (src/src/main.rs lines
136-138): `conn.interact(..).await.map_err(|_| UrlErr::DBError)?`.  Deadpool's
`interact` runs the closure under `spawn_blocking`, which catches an unwinding
panic and surfaces it as `Err(InteractError::Panic)`; the `map_err` converts
that to `UrlErr::DBError` and the `?` returns it.  A normally completed
closure passes its result through unchanged. -/
def interactRecover {σ : Type} (r : Outcome Url × σ) : Outcome Url × σ :=
  match r with
  | (.panic, st) => (.err .DBError, st)
  | (.ok u, st) => (.ok u, st)
  | (.err e, st) => (.err e, st)

/-- `create_url` (src/src/main.rs lines 77-139): the interact closure
followed by the interact-error handling of lines 136-138, which converts a
caught closure panic into `DBError` at the function boundary. -/
def create_url {σ : Type} (ops : StoreOps σ) (gens : Nat → String)
    (url : String) (slug : Option String) (author_ip : String) (st : σ) :
    Outcome Url × σ :=
  interactRecover (create_url_closure ops gens url slug author_ip st)

/-- `get_redir` (src/src/main.rs lines 170-199).  Lookup failure yields
`DBError`; an empty result yields `NotFound`; otherwise the usage counter is
bumped before the destination is returned.  A failing bump is
`map_err(|_| warn!(..)).unwrap()` in the source: the closure maps the error to
`()` (logging as a side effect) and the `unwrap` then panics on that `Err`.
Unlike `create_url`, the interact result here goes through `.await.unwrap()`
(line 197), which re-panics on the caught closure panic, so the panic is the
handler's outcome. -/
def get_redir {σ : Type} (ops : StoreOps σ) (slug_id : String) (st : σ) :
    Outcome String × σ :=
  match ops.load st slug_id with
  | (none, st') => (.err .DBError, st')
  | (some result, st') =>
    if result.length = 0 then (.err .NotFound, st')
    else
      match ops.bumpUsage st' slug_id with
      | (none, st'') => (.panic, st'')
      | (some _, st'') =>
        match result.head? with
        | some u => (.ok u.url, st'')
        | none => (.panic, st'')

/-- `post_root` (src/src/main.rs lines 141-162), the create-mapping boundary.
JSON parsing of the structured payload (`serde_json::from_str::<ShortReq>`,
an external crate) is abstracted as a `parse` function returning the url and
optional slug or a parse-error message.  A request whose content type is
absent or is not `application/json` uses the raw body verbatim as the url,
with no slug requested. -/
def post_root {σ : Type} (ops : StoreOps σ) (gens : Nat → String)
    (parse : String → Except String (String × Option String))
    (content_type : Option String) (author_ip : String) (body : String) (st : σ) :
    Outcome Url × σ :=
  let parsed : Except UrlErr (String × Option String) :=
    match content_type with
    | some ct =>
      if ct = "application/json" then
        match parse body with
        | .ok p => .ok p
        | .error e => .error (.JsonError e)
      else .ok (body, none)
    | none => .ok (body, none)
  match parsed with
  | .error e => (.err e, st)
  | .ok (u, sl) => create_url ops gens u sl author_ip st

/-- `UrlErr::into_response` (src/src/main.rs lines 40-75): the boundary map
from the error taxonomy to a human-readable message and an HTTP status code. -/
def into_response : UrlErr → String × Nat
  | .SlugOccupied => ("This slug is already in use.", 409)
  | .SlugTooManyTries => ("Unable to find a random slug to use, try again later.", 408)
  | .DBError => ("There was an error with the database.", 500)
  | .JsonError e => ("Error parsing json: " ++ e, 400)
  | .NotFound => ("Shortened URL not found.", 404)

/-- The all-operations-succeed fault schedule. -/
def noFaults : Nat → Bool := fun _ => false

/-! ### Helper lemmas about the concrete store -/

theorem loadBySlug_eq_nil (rows : List Url) (s : String)
    (h : rows.any (fun u => u.slug = s) = false) : loadBySlug rows s = [] := by
  have h2 : rows.filter (fun u => u.slug = s) = [] := by
    rw [List.filter_eq_nil_iff]
    intro a ha
    have := List.any_eq_false.mp h a ha
    simpa using this
  simp [loadBySlug, h2]

theorem loadBySlug_length_pos (rows : List Url) (s : String)
    (h : rows.any (fun u => u.slug = s) = true) : 0 < (loadBySlug rows s).length := by
  obtain ⟨u, hu, hp⟩ := List.any_eq_true.mp h
  have hmem : u ∈ rows.filter (fun v => v.slug = s) := List.mem_filter.mpr ⟨hu, hp⟩
  have hpos : 0 < (rows.filter (fun v => v.slug = s)).length :=
    List.length_pos.mpr (List.ne_nil_of_mem hmem)
  simp only [loadBySlug, List.length_take]
  omega

theorem loadBySlug_append_new (rows : List Url) (s url ip : String) (c : Int)
    (h : rows.any (fun u => u.slug = s) = false) :
    loadBySlug (rows ++ [⟨s, url, ip, c⟩]) s = [⟨s, url, ip, c⟩] := by
  have h2 : rows.filter (fun u => u.slug = s) = [] := by
    rw [List.filter_eq_nil_iff]
    intro a ha
    have := List.any_eq_false.mp h a ha
    simpa using this
  simp [loadBySlug, List.filter_append, h2]

theorem loadBySlug_append_self_ne_nil (rows : List Url) (s url ip : String) (c : Int) :
    loadBySlug (rows ++ [⟨s, url, ip, c⟩]) s ≠ [] := by
  intro hnil
  have hany : (rows ++ [Url.mk s url ip c]).any (fun u => u.slug = s) = true := by
    rw [List.any_eq_true]
    exact ⟨Url.mk s url ip c, List.mem_append_right _ (List.mem_singleton.mpr rfl), by simp⟩
  have hpos := loadBySlug_length_pos (rows ++ [Url.mk s url ip c]) s hany
  rw [hnil] at hpos
  simp at hpos

theorem collides_state (st : DB) (s : String) :
    (collides listStore st s).2 = { st with clock := st.clock + 1 } := by
  unfold collides listStore
  by_cases hf : st.faults st.clock <;> simp [hf]

theorem collides_hit (st : DB) (s : String)
    (h : st.rows.any (fun u => u.slug = s) = true) :
    collides listStore st s = (true, { st with clock := st.clock + 1 }) := by
  unfold collides listStore
  by_cases hf : st.faults st.clock
  · simp [hf]
  · simp [hf, loadBySlug_length_pos st.rows s h]

theorem collides_fault (st : DB) (s : String) (h : st.faults st.clock = true) :
    collides listStore st s = (true, { st with clock := st.clock + 1 }) := by
  unfold collides listStore
  simp [h]

theorem collides_miss (st : DB) (s : String)
    (hf : st.faults st.clock = false)
    (h : st.rows.any (fun u => u.slug = s) = false) :
    collides listStore st s = (false, { st with clock := st.clock + 1 }) := by
  unfold collides listStore
  simp [hf, loadBySlug_eq_nil st.rows s h]

theorem interactRecover_snd {σ : Type} (r : Outcome Url × σ) :
    (interactRecover r).2 = r.2 := by
  rcases r with ⟨o, st⟩
  cases o <;> rfl

theorem interactRecover_fst_ne_panic {σ : Type} (r : Outcome Url × σ) :
    (interactRecover r).1 ≠ .panic := by
  rcases r with ⟨o, st⟩
  cases o <;> simp [interactRecover]

theorem genLoop_state (gens : Nat → String) : ∀ (fuel i : Nat) (st : DB),
    ∃ k, (genLoop listStore gens i fuel st).2 = { st with clock := st.clock + k } := by
  intro fuel
  induction fuel with
  | zero =>
    intro i st
    exact ⟨0, rfl⟩
  | succ fuel ih =>
    intro i st
    rcases hc : collides listStore st (gens (i + 1)) with ⟨b, st1⟩
    have hst1 : st1 = { st with clock := st.clock + 1 } := by
      have h2 := collides_state st (gens (i + 1))
      rw [hc] at h2
      exact h2
    cases b with
    | false =>
      refine ⟨1, ?_⟩
      simp only [genLoop, hc, hst1]
    | true =>
      obtain ⟨k, hk⟩ := ih (i + 1) st1
      subst hst1
      refine ⟨1 + k, ?_⟩
      simp only [genLoop, hc, hk]
      congr 1
      omega

theorem genLoop_all_collide (gens : Nat → String) : ∀ (fuel i : Nat) (st : DB),
    (∀ j, st.rows.any (fun u => u.slug = gens j) = true) →
    genLoop listStore gens i fuel st = (none, { st with clock := st.clock + fuel }) := by
  intro fuel
  induction fuel with
  | zero =>
    intro i st h
    rfl
  | succ fuel ih =>
    intro i st h
    have hc : collides listStore st (gens (i + 1)) =
        (true, { st with clock := st.clock + 1 }) := collides_hit st _ (h (i + 1))
    have hrec := ih (i + 1) { st with clock := st.clock + 1 } h
    simp only [genLoop, hc, hrec]
    congr 2
    omega

theorem genLoop_all_fault (gens : Nat → String) : ∀ (fuel i : Nat) (st : DB),
    (∀ k, st.faults k = true) →
    genLoop listStore gens i fuel st = (none, { st with clock := st.clock + fuel }) := by
  intro fuel
  induction fuel with
  | zero =>
    intro i st h
    rfl
  | succ fuel ih =>
    intro i st h
    have hc : collides listStore st (gens (i + 1)) =
        (true, { st with clock := st.clock + 1 }) := collides_fault st _ (h st.clock)
    have hrec := ih (i + 1) { st with clock := st.clock + 1 } h
    simp only [genLoop, hc, hrec]
    congr 2
    omega

theorem insertAndRead_ok (st : DB) (s url ip : String)
    (hany : st.rows.any (fun u => u.slug = s) = false)
    (hf0 : st.faults st.clock = false)
    (hf1 : st.faults (st.clock + 1) = false) :
    insertAndRead listStore s url ip st =
      (.ok ⟨s, url, ip, 0⟩,
       { st with rows := st.rows ++ [⟨s, url, ip, 0⟩], clock := st.clock + 2 }) := by
  unfold insertAndRead listStore
  simp only [hf0, hany, or_self, Bool.false_eq_true, if_false, false_or, if_neg,
    Bool.not_eq_true]
  simp only [hf1, Bool.false_eq_true, if_false]
  rw [loadBySlug_append_new st.rows s url ip 0 hany]
  rfl

theorem insertAndRead_insert_fault (st : DB) (s url ip : String)
    (hf0 : st.faults st.clock = true) :
    insertAndRead listStore s url ip st =
      (.err .DBError, { st with clock := st.clock + 1 }) := by
  unfold insertAndRead listStore
  simp [hf0]

theorem insertAndRead_readback_fault (st : DB) (s url ip : String)
    (hany : st.rows.any (fun u => u.slug = s) = false)
    (hf0 : st.faults st.clock = false)
    (hf1 : st.faults (st.clock + 1) = true) :
    insertAndRead listStore s url ip st =
      (.err .DBError,
       { st with rows := st.rows ++ [⟨s, url, ip, 0⟩], clock := st.clock + 2 }) := by
  unfold insertAndRead listStore
  simp [hf0, hany, hf1]

theorem create_url_explicit_ok_aux (st : DB) (gens : Nat → String) (s url ip : String)
    (hany : st.rows.any (fun u => u.slug = s) = false)
    (hf0 : st.faults st.clock = false)
    (hf1 : st.faults (st.clock + 1) = false)
    (hf2 : st.faults (st.clock + 2) = false) :
    create_url listStore gens url (some s) ip st =
      (.ok ⟨s, url, ip, 0⟩,
       { st with rows := st.rows ++ [⟨s, url, ip, 0⟩], clock := st.clock + 3 }) := by
  have hc := collides_miss st s hf0 hany
  simp only [create_url, create_url_closure, hc]
  rw [insertAndRead_ok { st with clock := st.clock + 1 } s url ip hany hf1 hf2]
  rfl

theorem get_redir_hit (st : DB) (s : String) (u : Url) (l : List Url)
    (hload : loadBySlug st.rows s = u :: l)
    (hf0 : st.faults st.clock = false)
    (hf1 : st.faults (st.clock + 1) = false) :
    get_redir listStore s st =
      (.ok u.url, { st with rows := bumpRow s st.rows, clock := st.clock + 2 }) := by
  unfold get_redir listStore
  simp [hf0, hload, hf1]

theorem get_redir_notfound (st : DB) (s : String)
    (hany : st.rows.any (fun u => u.slug = s) = false)
    (hf0 : st.faults st.clock = false) :
    get_redir listStore s st = (.err .NotFound, { st with clock := st.clock + 1 }) := by
  unfold get_redir listStore
  simp [hf0, loadBySlug_eq_nil st.rows s hany]

theorem get_redir_bump_fault (st : DB) (s : String) (u : Url) (l : List Url)
    (hload : loadBySlug st.rows s = u :: l)
    (hf0 : st.faults st.clock = false)
    (hf1 : st.faults (st.clock + 1) = true) :
    get_redir listStore s st = (.panic, { st with clock := st.clock + 2 }) := by
  unfold get_redir listStore
  simp [hf0, hload, hf1]

theorem get_redir_load_fault (st : DB) (s : String)
    (hf0 : st.faults st.clock = true) :
    get_redir listStore s st = (.err .DBError, { st with clock := st.clock + 1 }) := by
  unfold get_redir listStore
  simp [hf0]

/-- Exhaustive case analysis of `get_redir` on the concrete store. -/
theorem get_redir_cases (st : DB) (s : String) :
    (st.faults st.clock = true ∧
       get_redir listStore s st = (.err .DBError, { st with clock := st.clock + 1 })) ∨
    (st.faults st.clock = false ∧ loadBySlug st.rows s = [] ∧
       get_redir listStore s st = (.err .NotFound, { st with clock := st.clock + 1 })) ∨
    (∃ u l, st.faults st.clock = false ∧ loadBySlug st.rows s = u :: l ∧
       st.faults (st.clock + 1) = true ∧
       get_redir listStore s st = (.panic, { st with clock := st.clock + 2 })) ∨
    (∃ u l, st.faults st.clock = false ∧ loadBySlug st.rows s = u :: l ∧
       st.faults (st.clock + 1) = false ∧
       get_redir listStore s st =
         (.ok u.url, { st with rows := bumpRow s st.rows, clock := st.clock + 2 })) := by
  by_cases hf0 : st.faults st.clock = true
  · exact Or.inl ⟨hf0, get_redir_load_fault st s hf0⟩
  · rw [Bool.not_eq_true] at hf0
    rcases hload : loadBySlug st.rows s with _ | ⟨u, l⟩
    · refine Or.inr (Or.inl ⟨hf0, rfl, ?_⟩)
      unfold get_redir listStore
      simp [hf0, hload]
    · by_cases hf1 : st.faults (st.clock + 1) = true
      · exact Or.inr (Or.inr (Or.inl ⟨u, l, hf0, rfl, hf1,
          get_redir_bump_fault st s u l hload hf0 hf1⟩))
      · rw [Bool.not_eq_true] at hf1
        exact Or.inr (Or.inr (Or.inr ⟨u, l, hf0, rfl, hf1,
          get_redir_hit st s u l hload hf0 hf1⟩))

theorem insertAndRead_rows (st : DB) (s url ip : String) :
    (insertAndRead listStore s url ip st).2.rows = st.rows ∨
    (insertAndRead listStore s url ip st).2.rows = st.rows ++ [⟨s, url, ip, 0⟩] := by
  unfold insertAndRead listStore
  by_cases h0 : (st.faults st.clock = true) ∨ (st.rows.any (fun v => v.slug = s) = true)
  · left
    simp only []
    rw [if_pos (by simpa using h0)]
  · rw [not_or] at h0
    obtain ⟨h0a, h0b⟩ := h0
    rw [Bool.not_eq_true] at h0a h0b
    right
    simp only []
    rw [if_neg (by simp [h0a, h0b])]
    by_cases h1 : st.faults (st.clock + 1) = true
    · simp [h1]
    · rw [Bool.not_eq_true] at h1
      simp only [h1, Bool.false_eq_true, if_false]
      cases hh : (loadBySlug (st.rows ++ [⟨s, url, ip, 0⟩]) s).head? <;> simp [hh]

theorem insertAndRead_ne_panic (st : DB) (s url ip : String) :
    (insertAndRead listStore s url ip st).1 ≠ .panic := by
  unfold insertAndRead listStore
  by_cases h0 : (st.faults st.clock = true) ∨ (st.rows.any (fun v => v.slug = s) = true)
  · simp only []
    rw [if_pos (by simpa using h0)]
    simp
  · rw [not_or] at h0
    obtain ⟨h0a, h0b⟩ := h0
    rw [Bool.not_eq_true] at h0a h0b
    simp only []
    rw [if_neg (by simp [h0a, h0b])]
    by_cases h1 : st.faults (st.clock + 1) = true
    · simp [h1]
    · rw [Bool.not_eq_true] at h1
      simp only [h1, Bool.false_eq_true, if_false]
      rcases hh : (loadBySlug (st.rows ++ [⟨s, url, ip, 0⟩]) s).head? with _ | u
      · exfalso
        exact loadBySlug_append_self_ne_nil st.rows s url ip 0 (List.head?_eq_none_iff.mp hh)
      · simp [hh]

theorem create_url_closure_rows (st : DB) (gens : Nat → String) (url ip : String)
    (oslug : Option String) :
    (create_url_closure listStore gens url oslug ip st).2.rows = st.rows ∨
    ∃ s, (create_url_closure listStore gens url oslug ip st).2.rows =
      st.rows ++ [⟨s, url, ip, 0⟩] := by
  cases oslug with
  | some s =>
    rcases hc : collides listStore st s with ⟨b, st1⟩
    have hst1 : st1 = { st with clock := st.clock + 1 } := by
      have h2 := collides_state st s
      rw [hc] at h2
      exact h2
    cases b with
    | true =>
      left
      simp only [create_url_closure, hc, hst1]
    | false =>
      simp only [create_url_closure, hc]
      rcases insertAndRead_rows st1 s url ip with h | h
      · left
        rw [h, hst1]
      · right
        refine ⟨s, ?_⟩
        rw [h, hst1]
  | none =>
    rcases hg : genLoop listStore gens 0 10 st with ⟨r, st1⟩
    obtain ⟨k, hk0⟩ := genLoop_state gens 10 0 st
    rw [hg] at hk0
    replace hk0 : st1 = { st with clock := st.clock + k } := hk0
    cases r with
    | none =>
      left
      simp only [create_url_closure, hg, hk0]
    | some s =>
      simp only [create_url_closure, hg]
      rcases insertAndRead_rows st1 s url ip with h | h
      · left
        rw [h]
        simp [hk0]
      · right
        refine ⟨s, ?_⟩
        rw [h]
        simp [hk0]

theorem create_url_rows (st : DB) (gens : Nat → String) (url ip : String)
    (oslug : Option String) :
    (create_url listStore gens url oslug ip st).2.rows = st.rows ∨
    ∃ s, (create_url listStore gens url oslug ip st).2.rows = st.rows ++ [⟨s, url, ip, 0⟩] := by
  simp only [create_url, interactRecover_snd]
  exact create_url_closure_rows st gens url ip oslug

theorem create_url_closure_ne_panic (st : DB) (gens : Nat → String) (url ip : String)
    (oslug : Option String) :
    (create_url_closure listStore gens url oslug ip st).1 ≠ .panic := by
  cases oslug with
  | some s =>
    rcases hc : collides listStore st s with ⟨b, st1⟩
    cases b with
    | true => simp [create_url_closure, hc]
    | false =>
      simp only [create_url_closure, hc]
      exact insertAndRead_ne_panic st1 s url ip
  | none =>
    rcases hg : genLoop listStore gens 0 10 st with ⟨r, st1⟩
    cases r with
    | none => simp [create_url_closure, hg]
    | some s =>
      simp only [create_url_closure, hg]
      exact insertAndRead_ne_panic st1 s url ip

/-- `rows2` keeps every mapping of `rows1`: same slug, destination and creator
address, and a usage count that has not decreased. -/
def preservesRows (rows1 rows2 : List Url) : Prop :=
  ∀ u ∈ rows1, ∃ v ∈ rows2, v.slug = u.slug ∧ v.url = u.url ∧
    v.author_ip = u.author_ip ∧ u.usage_count ≤ v.usage_count

theorem preservesRows_refl (rows : List Url) : preservesRows rows rows :=
  fun u hu => ⟨u, hu, rfl, rfl, rfl, le_refl _⟩

theorem preservesRows_append (rows l : List Url) : preservesRows rows (rows ++ l) :=
  fun u hu => ⟨u, List.mem_append_left l hu, rfl, rfl, rfl, le_refl _⟩

theorem preservesRows_bump (s : String) (rows : List Url) :
    preservesRows rows (bumpRow s rows) := by
  intro u hu
  by_cases hs : u.slug = s
  · refine ⟨{ u with usage_count := u.usage_count + 1 }, ?_, rfl, rfl, rfl, by simp⟩
    unfold bumpRow
    have : (if u.slug = s then { u with usage_count := u.usage_count + 1 } else u) =
        { u with usage_count := u.usage_count + 1 } := if_pos hs
    rw [← this]
    exact List.mem_map_of_mem _ hu
  · refine ⟨u, ?_, rfl, rfl, rfl, le_refl _⟩
    unfold bumpRow
    have : (if u.slug = s then { u with usage_count := u.usage_count + 1 } else u) = u :=
      if_neg hs
    rw [← this]
    exact List.mem_map_of_mem _ hu

/-! ### Claim theorems -/

/-- C1 (code bug): resolving an existing slug while the usage-counter
increment fails is specified to log a warning and still return the stored
destination.  The code instead panics: `map_err(|_| warn!(..))` turns the
failed `execute` into `Err(())` and the following `unwrap()` panics on it
(src/src/main.rs lines 188-192), so the resolution does not succeed.  At the
concrete failing input below — a store holding slug "abc" with destination
"https://example.com" whose update operation fails — the outcome is a panic,
not `ok "https://example.com"`. -/
theorem get_redir_panics_when_increment_fails :
    (get_redir listStore "abc"
        ⟨[⟨"abc", "https://example.com", "1.2.3.4", 0⟩], 0, fun k => k != 0⟩).1 = .panic ∧
    (get_redir listStore "abc"
        ⟨[⟨"abc", "https://example.com", "1.2.3.4", 0⟩], 0, fun k => k != 0⟩).1 ≠
      .ok "https://example.com" := by
  constructor
  · rfl
  · decide

/-- C2: in the generated-slug path, when every generated candidate collides
with an existing slug, `create_url` fails with `SlugTooManyTries` after
exactly 10 collision-checked generation attempts (the candidate drawn on
source line 101 is overwritten before ever being checked) and performs no
insert: the final store has the same rows and exactly 10 more store
operations, all of them existence checks. -/
theorem create_url_generated_exhaustion (st : DB) (gens : Nat → String)
    (url ip : String)
    (h : ∀ j, st.rows.any (fun u => u.slug = gens j) = true) :
    create_url listStore gens url none ip st =
      (.err .SlugTooManyTries, { st with clock := st.clock + 10 }) := by
  simp only [create_url, create_url_closure, genLoop_all_collide gens 10 0 st h,
    interactRecover]

/-- Witness for C2 at a concrete input: a store holding the single slug "x"
and a generator that always draws "x". -/
theorem create_url_generated_exhaustion_witness :
    create_url listStore (fun _ => "x") "https://example.com" none "1.2.3.4"
        ⟨[⟨"x", "https://old.example", "9.9.9.9", 0⟩], 0, fun _ => false⟩ =
      (.err .SlugTooManyTries,
       ⟨[⟨"x", "https://old.example", "9.9.9.9", 0⟩], 10, fun _ => false⟩) :=
  create_url_generated_exhaustion
    ⟨[⟨"x", "https://old.example", "9.9.9.9", 0⟩], 0, fun _ => false⟩
    (fun _ => "x") "https://example.com" "1.2.3.4" (fun _ => rfl)

/-- C3 counterexample: the claim localises the "assume collision" refinement
to the generated-slug path only, so a store failure during the explicit-slug
existence check would have to surface as `StoreUnavailable`/`DBError`.  On an
empty store whose every operation fails, requesting slug "s" yields
`SlugOccupied`, not `DBError`: the shared `collides` closure treats the
failure as a collision in the explicit path too. -/
theorem create_url_lookup_failure_not_dberror :
    (create_url listStore (fun _ => "g") "https://example.com" (some "s") "1.2.3.4"
        ⟨[], 0, fun _ => true⟩).1 = .err .SlugOccupied ∧
    (create_url listStore (fun _ => "g") "https://example.com" (some "s") "1.2.3.4"
        ⟨[], 0, fun _ => true⟩).1 ≠ .err .DBError := by
  decide

/-- C3 (amended): store failures during ANY existence check — explicit or
generated — are treated as "assume collision" (`SlugOccupied` in the explicit
path; a consumed retry in the generated path), while store failures during
the insert or during the post-insert read-back surface as `DBError`. -/
theorem create_url_store_failure_policy (st : DB) (gens : Nat → String)
    (s url ip : String) :
    (st.faults st.clock = true →
      create_url listStore gens url (some s) ip st =
        (.err .SlugOccupied, { st with clock := st.clock + 1 }))
  ∧ (st.faults st.clock = false → st.rows.any (fun u => u.slug = s) = false →
      st.faults (st.clock + 1) = true →
      create_url listStore gens url (some s) ip st =
        (.err .DBError, { st with clock := st.clock + 2 }))
  ∧ (st.faults st.clock = false → st.rows.any (fun u => u.slug = s) = false →
      st.faults (st.clock + 1) = false → st.faults (st.clock + 2) = true →
      create_url listStore gens url (some s) ip st =
        (.err .DBError,
         { st with rows := st.rows ++ [⟨s, url, ip, 0⟩], clock := st.clock + 3 }))
  ∧ ((∀ k, st.faults k = true) →
      create_url listStore gens url none ip st =
        (.err .SlugTooManyTries, { st with clock := st.clock + 10 })) := by
  refine ⟨?_, ?_, ?_, ?_⟩
  · intro hf0
    simp only [create_url, create_url_closure, collides_fault st s hf0, interactRecover]
  · intro hf0 hany hf1
    simp only [create_url, create_url_closure, collides_miss st s hf0 hany]
    rw [insertAndRead_insert_fault { st with clock := st.clock + 1 } s url ip hf1]
    rfl
  · intro hf0 hany hf1 hf2
    simp only [create_url, create_url_closure, collides_miss st s hf0 hany]
    rw [insertAndRead_readback_fault { st with clock := st.clock + 1 } s url ip hany hf1 hf2]
    rfl
  · intro hall
    simp only [create_url, create_url_closure, genLoop_all_fault gens 10 0 st hall,
      interactRecover]

/-- Witness for the amended C3 at concrete inputs, one per conjunct. -/
theorem create_url_store_failure_policy_witness :
    create_url listStore (fun _ => "g") "d" (some "s") "i" ⟨[], 0, fun _ => true⟩ =
      (.err .SlugOccupied, ⟨[], 1, fun _ => true⟩)
  ∧ create_url listStore (fun _ => "g") "d" (some "s") "i" ⟨[], 0, fun k => k == 1⟩ =
      (.err .DBError, ⟨[], 2, fun k => k == 1⟩)
  ∧ create_url listStore (fun _ => "g") "d" (some "s") "i" ⟨[], 0, fun k => k == 2⟩ =
      (.err .DBError, ⟨[⟨"s", "d", "i", 0⟩], 3, fun k => k == 2⟩)
  ∧ create_url listStore (fun _ => "g") "d" none "i" ⟨[], 0, fun _ => true⟩ =
      (.err .SlugTooManyTries, ⟨[], 10, fun _ => true⟩) :=
  ⟨(create_url_store_failure_policy ⟨[], 0, fun _ => true⟩ (fun _ => "g") "s" "d" "i").1 rfl,
   (create_url_store_failure_policy ⟨[], 0, fun k => k == 1⟩ (fun _ => "g") "s" "d" "i").2.1
     rfl rfl rfl,
   (create_url_store_failure_policy ⟨[], 0, fun k => k == 2⟩ (fun _ => "g") "s" "d" "i").2.2.1
     rfl rfl rfl rfl,
   (create_url_store_failure_policy ⟨[], 0, fun _ => true⟩ (fun _ => "g") "s" "d" "i").2.2.2
     (fun _ => rfl)⟩

/-- C4: with a requested slug, `create_url` fails with `SlugOccupied` and
leaves the store rows untouched whenever a mapping with that exact slug
exists (whatever the fault schedule); and when none exists and the store
operations succeed, it inserts a new mapping with `usage_count = 0` and
returns exactly that mapping. -/
theorem create_url_explicit_slug_spec (st : DB) (gens : Nat → String)
    (s url ip : String) :
    (st.rows.any (fun u => u.slug = s) = true →
      create_url listStore gens url (some s) ip st =
        (.err .SlugOccupied, { st with clock := st.clock + 1 }))
  ∧ (st.rows.any (fun u => u.slug = s) = false →
      st.faults st.clock = false → st.faults (st.clock + 1) = false →
      st.faults (st.clock + 2) = false →
      create_url listStore gens url (some s) ip st =
        (.ok ⟨s, url, ip, 0⟩,
         { st with rows := st.rows ++ [⟨s, url, ip, 0⟩], clock := st.clock + 3 })) := by
  constructor
  · intro hany
    simp only [create_url, create_url_closure, collides_hit st s hany, interactRecover]
  · intro hany hf0 hf1 hf2
    exact create_url_explicit_ok_aux st gens s url ip hany hf0 hf1 hf2

/-- Witness for C4: creating slug "taken" on an empty store succeeds with a
zero usage count; creating "taken" again (different destination) fails with
`SlugOccupied` and leaves the store rows untouched. -/
theorem create_url_explicit_slug_spec_witness :
    create_url listStore (fun _ => "g") "https://example.com" (some "taken") "1.2.3.4"
        ⟨[], 0, fun _ => false⟩ =
      (.ok ⟨"taken", "https://example.com", "1.2.3.4", 0⟩,
       ⟨[⟨"taken", "https://example.com", "1.2.3.4", 0⟩], 3, fun _ => false⟩)
  ∧ create_url listStore (fun _ => "g") "https://other.example" (some "taken") "5.6.7.8"
        ⟨[⟨"taken", "https://example.com", "1.2.3.4", 0⟩], 3, fun _ => false⟩ =
      (.err .SlugOccupied,
       ⟨[⟨"taken", "https://example.com", "1.2.3.4", 0⟩], 4, fun _ => false⟩) :=
  ⟨(create_url_explicit_slug_spec ⟨[], 0, fun _ => false⟩ (fun _ => "g") "taken"
      "https://example.com" "1.2.3.4").2 rfl rfl rfl rfl,
   (create_url_explicit_slug_spec
      ⟨[⟨"taken", "https://example.com", "1.2.3.4", 0⟩], 3, fun _ => false⟩
      (fun _ => "g") "taken" "https://other.example" "5.6.7.8").1 rfl⟩

/-- C5: round trip — on a fault-free store not containing slug `s`, a
successful `create_url` of `s → d` followed by `get_redir s` returns `d`;
and `get_redir` of a slug not present in the store fails with `NotFound`. -/
theorem create_url_get_redir_round_trip (st : DB) (gens : Nat → String)
    (s d ip : String) :
    (st.rows.any (fun u => u.slug = s) = false →
      (∀ k, st.faults k = false) →
      (create_url listStore gens d (some s) ip st).1 = .ok ⟨s, d, ip, 0⟩ ∧
      (get_redir listStore s (create_url listStore gens d (some s) ip st).2).1 = .ok d)
  ∧ (st.rows.any (fun u => u.slug = s) = false →
      st.faults st.clock = false →
      (get_redir listStore s st).1 = .err .NotFound) := by
  constructor
  · intro hany hf
    have hcreate := create_url_explicit_ok_aux st gens s d ip hany (hf _) (hf _) (hf _)
    rw [hcreate]
    refine ⟨rfl, ?_⟩
    have hload : loadBySlug
        ({ st with rows := st.rows ++ [⟨s, d, ip, 0⟩], clock := st.clock + 3 } : DB).rows s =
        (⟨s, d, ip, 0⟩ : Url) :: [] := loadBySlug_append_new st.rows s d ip 0 hany
    rw [get_redir_hit _ s _ [] hload (hf _) (hf _)]
  · intro hany hf0
    rw [get_redir_notfound st s hany hf0]

/-- Witness for C5, at the spec's own example: slug "abc123", destination
"https://example.com", and the never-allocated slug "missing99". -/
theorem create_url_get_redir_round_trip_witness :
    ((create_url listStore (fun _ => "g") "https://example.com" (some "abc123") "1.2.3.4"
        ⟨[], 0, fun _ => false⟩).1 = .ok ⟨"abc123", "https://example.com", "1.2.3.4", 0⟩ ∧
     (get_redir listStore "abc123"
        (create_url listStore (fun _ => "g") "https://example.com" (some "abc123") "1.2.3.4"
          ⟨[], 0, fun _ => false⟩).2).1 = .ok "https://example.com")
  ∧ (get_redir listStore "missing99" ⟨[], 0, fun _ => false⟩).1 = .err .NotFound :=
  ⟨(create_url_get_redir_round_trip ⟨[], 0, fun _ => false⟩ (fun _ => "g") "abc123"
      "https://example.com" "1.2.3.4").1 rfl (fun _ => rfl),
   (create_url_get_redir_round_trip ⟨[], 0, fun _ => false⟩ (fun _ => "g") "missing99"
      "https://example.com" "1.2.3.4").2 rfl rfl⟩

/-- A store implementation used to observe where `create_url`'s successful
result comes from: its state is a bare operation counter, the pre-insert
existence check (operation 0) sees an empty table, and every later read
returns the fixed row `r` — which need not be related to what was inserted. -/
def probeStore (r : Url) : StoreOps Nat where
  load n _ := (some (if n = 0 then [] else [r]), n + 1)
  insertRow n _ := (some (), n + 1)
  bumpUsage n _ := (some (), n + 1)

/-- C6: on a successful allocation the returned mapping is the result of the
post-insert read of the store, not a value constructed locally from the
inputs: against a store whose post-insert read returns an arbitrary row `r`,
`create_url` returns exactly `r`, and whenever `r` differs from the local
echo `⟨s, d, ip, 0⟩` the returned mapping is not that echo. -/
theorem create_url_returns_fresh_read (r : Url) (gens : Nat → String)
    (s d ip : String) :
    (create_url (probeStore r) gens d (some s) ip 0).1 = .ok r
  ∧ (r ≠ ⟨s, d, ip, 0⟩ →
      (create_url (probeStore r) gens d (some s) ip 0).1 ≠ .ok ⟨s, d, ip, 0⟩) := by
  refine ⟨rfl, fun hne hcontra => hne ?_⟩
  have h1 : (create_url (probeStore r) gens d (some s) ip 0).1 = .ok r := rfl
  rw [h1] at hcontra
  exact Outcome.ok.inj hcontra

/-- Witness for C6: the post-insert read returns a row unrelated to the
request's inputs, and that row — not the locally constructed echo — is what
the caller gets back. -/
theorem create_url_returns_fresh_read_witness :
    (create_url (probeStore ⟨"w", "x", "y", 5⟩) (fun _ => "g") "d" (some "s") "ip" 0).1 =
      .ok ⟨"w", "x", "y", 5⟩
  ∧ (create_url (probeStore ⟨"w", "x", "y", 5⟩) (fun _ => "g") "d" (some "s") "ip" 0).1 ≠
      .ok ⟨"s", "d", "ip", 0⟩ :=
  ⟨(create_url_returns_fresh_read ⟨"w", "x", "y", 5⟩ (fun _ => "g") "s" "d" "ip").1,
   (create_url_returns_fresh_read ⟨"w", "x", "y", 5⟩ (fun _ => "g") "s" "d" "ip").2
     (by decide)⟩

/-- C7: state invariants preserved by both operations, under any fault
schedule.  `create_url` keeps every existing mapping unchanged (same slug,
destination and creator address, usage count not decreased) and any row it
adds has `usage_count = 0`; `get_redir` also keeps every mapping (with the
same fields and a non-decreased counter), a successful resolution increments
the usage count of exactly the rows with the resolved slug by exactly 1, and
an unsuccessful one leaves the rows unchanged. -/
theorem core_state_invariants (st : DB) (gens : Nat → String) (url ip s : String)
    (oslug : Option String) :
    preservesRows st.rows (create_url listStore gens url oslug ip st).2.rows
  ∧ (∀ v ∈ (create_url listStore gens url oslug ip st).2.rows,
      v ∈ st.rows ∨ v.usage_count = 0)
  ∧ preservesRows st.rows (get_redir listStore s st).2.rows
  ∧ (∀ d, (get_redir listStore s st).1 = .ok d →
      (get_redir listStore s st).2.rows = bumpRow s st.rows)
  ∧ (∀ e, (get_redir listStore s st).1 = .err e →
      (get_redir listStore s st).2.rows = st.rows) := by
  have hcreate := create_url_rows st gens url ip oslug
  have hredir := get_redir_cases st s
  refine ⟨?_, ?_, ?_, ?_, ?_⟩
  · rcases hcreate with h | ⟨s2, h⟩
    · rw [h]
      exact preservesRows_refl st.rows
    · rw [h]
      exact preservesRows_append st.rows _
  · intro v hv
    rcases hcreate with h | ⟨s2, h⟩
    · rw [h] at hv
      exact Or.inl hv
    · rw [h] at hv
      rcases List.mem_append.mp hv with hv2 | hv2
      · exact Or.inl hv2
      · right
        rw [List.mem_singleton.mp hv2]
  · rcases hredir with ⟨_, h⟩ | ⟨_, _, h⟩ | ⟨u, l, _, _, _, h⟩ | ⟨u, l, _, _, _, h⟩ <;> rw [h]
    · exact preservesRows_refl st.rows
    · exact preservesRows_refl st.rows
    · exact preservesRows_refl st.rows
    · exact preservesRows_bump s st.rows
  · intro d hd
    rcases hredir with ⟨_, h⟩ | ⟨_, _, h⟩ | ⟨u, l, _, _, _, h⟩ | ⟨u, l, _, _, _, h⟩ <;>
      rw [h] at hd ⊢ <;> simp_all
  · intro e he
    rcases hredir with ⟨_, h⟩ | ⟨_, _, h⟩ | ⟨u, l, _, _, _, h⟩ | ⟨u, l, _, _, _, h⟩ <;>
      rw [h] at he ⊢
    all_goals simp_all

/-- Witness for C7 at concrete inputs: a store holding slug "abc" with usage
count 3; a successful allocation of "new" and a successful resolution of
"abc". -/
theorem core_state_invariants_witness :
    preservesRows [⟨"abc", "u", "a", (3 : Int)⟩]
      (create_url listStore (fun _ => "g") "d" (some "new") "i"
        ⟨[⟨"abc", "u", "a", 3⟩], 0, fun _ => false⟩).2.rows
  ∧ (get_redir listStore "abc" ⟨[⟨"abc", "u", "a", 3⟩], 0, fun _ => false⟩).2.rows =
      bumpRow "abc" [⟨"abc", "u", "a", 3⟩] :=
  ⟨(core_state_invariants ⟨[⟨"abc", "u", "a", 3⟩], 0, fun _ => false⟩ (fun _ => "g")
      "d" "i" "abc" (some "new")).1,
   (core_state_invariants ⟨[⟨"abc", "u", "a", 3⟩], 0, fun _ => false⟩ (fun _ => "g")
      "d" "i" "abc" (some "new")).2.2.2.1 "u" (by decide)⟩

/-- C8: the boundary map over the closed error taxonomy is total:
`SlugOccupied` is a conflict (409), `SlugTooManyTries` a timeout-class
retryable condition (408), a malformed structured payload a client input
error (400), a store failure a server-side error (500), absence a not-found
(404); and every variant carries a nonempty human-readable message. -/
theorem into_response_boundary_total :
    into_response .SlugOccupied = ("This slug is already in use.", 409)
  ∧ into_response .SlugTooManyTries =
      ("Unable to find a random slug to use, try again later.", 408)
  ∧ into_response .DBError = ("There was an error with the database.", 500)
  ∧ into_response .NotFound = ("Shortened URL not found.", 404)
  ∧ (∀ m, (into_response (.JsonError m)).2 = 400)
  ∧ (∀ e, 0 < (into_response e).1.length) := by
  refine ⟨rfl, rfl, rfl, rfl, fun m => rfl, fun e => ?_⟩
  cases e with
  | JsonError m =>
    have h : (into_response (.JsonError m)).1 = "Error parsing json: " ++ m := rfl
    rw [h, String.length_append]
    have h20 : ("Error parsing json: " : String).length = 20 := rfl
    omega
  | SlugOccupied => decide
  | SlugTooManyTries => decide
  | DBError => decide
  | NotFound => decide

/-- A store implementation whose reads always return an empty result, so
that the post-insert read-back of `create_url` comes back with zero rows. -/
def vanishStore : StoreOps Nat where
  load n _ := (some [], n + 1)
  insertRow n _ := (some (), n + 1)
  bumpUsage n _ := (some (), n + 1)

/-- C9 counterexample: the claim says that when the post-insert read-back
returns zero rows, `create_url` panics instead of returning any error value
of the taxonomy.  Against the store whose reads come back empty, `create_url`
in fact returns the taxonomy error `DBError` and does not panic: the
closure's unwrap panic is caught by deadpool's `interact` and converted by
`.await.map_err(|_| UrlErr::DBError)?` (src/src/main.rs lines 136-138). -/
theorem create_url_empty_readback_no_panic_escape :
    (create_url vanishStore (fun _ => "g") "d" (some "s") "i" 0).1 = .err .DBError ∧
    (create_url vanishStore (fun _ => "g") "d" (some "s") "i" 0).1 ≠ .panic := by
  decide

/-- C9 (amended): the post-insert read-back result is unwrapped without a
guard inside the interact closure.  Against the faithful store the inserted
row is present at read-back time and the unwrap never panics, under any
fault schedule.  When the read-back returns zero rows the closure does panic
at the unwrap, and `create_url`'s interact-error handling converts the
caught panic into `DBError`, so `create_url` returns a taxonomy error
rather than panicking. -/
theorem create_url_readback_unwrap_recovery (st : DB) (gens : Nat → String)
    (url ip s d : String) (oslug : Option String) :
    (create_url_closure listStore gens url oslug ip st).1 ≠ .panic
  ∧ (create_url_closure vanishStore gens d (some s) ip 0).1 = .panic
  ∧ (create_url vanishStore gens d (some s) ip 0).1 = .err .DBError :=
  ⟨create_url_closure_ne_panic st gens url ip oslug, rfl, rfl⟩

/-- Witness for C9 at concrete inputs: the closure-level no-panic half on a
fault-free empty faithful store; the closure-level panic and the
function-level `DBError` against the empty-read-back store. -/
theorem create_url_readback_unwrap_recovery_witness :
    (create_url_closure listStore (fun _ => "g") "d" (some "s") "i"
        ⟨[], 0, fun _ => false⟩).1 ≠ .panic
  ∧ (create_url_closure vanishStore (fun _ => "g") "d" (some "s") "i" 0).1 = .panic
  ∧ (create_url vanishStore (fun _ => "g") "d" (some "s") "i" 0).1 = .err .DBError :=
  create_url_readback_unwrap_recovery ⟨[], 0, fun _ => false⟩ (fun _ => "g") "d" "i" "s" "d"
    (some "s")

/-- C10: the destination URL is never validated.  Any string — the empty
string included — passed as destination is persisted verbatim and the
allocation succeeds; and a request without a JSON content type (absent
header, or any other content type) takes the raw body verbatim as the
destination with no slug requested, over any store implementation. -/
theorem destination_unvalidated {σ : Type} (ops : StoreOps σ) (st2 : σ)
    (parse : String → Except String (String × Option String))
    (st : DB) (gens : Nat → String) (d s ip body : String) :
    (st.rows.any (fun u => u.slug = s) = false →
      st.faults st.clock = false → st.faults (st.clock + 1) = false →
      st.faults (st.clock + 2) = false →
      create_url listStore gens d (some s) ip st =
        (.ok ⟨s, d, ip, 0⟩,
         { st with rows := st.rows ++ [⟨s, d, ip, 0⟩], clock := st.clock + 3 }))
  ∧ post_root ops gens parse none ip body st2 = create_url ops gens body none ip st2
  ∧ (∀ ct, ct ≠ "application/json" →
      post_root ops gens parse (some ct) ip body st2 =
        create_url ops gens body none ip st2) := by
  refine ⟨?_, rfl, fun ct hct => ?_⟩
  · intro hany hf0 hf1 hf2
    exact create_url_explicit_ok_aux st gens s d ip hany hf0 hf1 hf2
  · simp only [post_root, if_neg hct]

/-- Witness for C10: the empty destination is persisted verbatim and the
allocation succeeds, and a `text/plain` request with an empty body takes the
body verbatim as the destination with no slug requested. -/
theorem destination_unvalidated_witness :
    create_url listStore (fun _ => "g") "" (some "s") "ip" ⟨[], 0, fun _ => false⟩ =
      (.ok ⟨"s", "", "ip", 0⟩, ⟨[⟨"s", "", "ip", 0⟩], 3, fun _ => false⟩)
  ∧ post_root listStore (fun _ => "g") (fun b => .ok (b, none)) (some "text/plain") "ip" ""
      ⟨[], 0, fun _ => false⟩ =
      create_url listStore (fun _ => "g") "" none "ip" ⟨[], 0, fun _ => false⟩ :=
  ⟨(destination_unvalidated listStore ⟨[], 0, fun _ => false⟩ (fun b => .ok (b, none))
      ⟨[], 0, fun _ => false⟩ (fun _ => "g") "" "s" "ip" "").1 rfl rfl rfl rfl,
   (destination_unvalidated listStore ⟨[], 0, fun _ => false⟩ (fun b => .ok (b, none))
      ⟨[], 0, fun _ => false⟩ (fun _ => "g") "" "s" "ip" "").2.2 "text/plain" (by decide)⟩

end UrlShortener
